import Mathlib

/-!
Verification of the mcp-oauth-setup repository: OAuth 2.0 / OIDC token
verification, scope enforcement, PKCE authorization-code flow, and RFC 8693
token exchange with DPoP proofs.

The repository consists of three Python roles:
  - mcp-okta-client  (mcp_client.py, okta_oauth_provider.py): browser OAuth
    authorization-code + PKCE flow;
  - mcp-okta-server  (mcp_server.py, okta_token_verifier.py): introspection
    token verification and DPoP token exchange;
  - mcp-okta-backend (mcp_backend.py): local JWT verification with JWKS
    lookup and scope enforcement.

Each Python function relevant to the checked properties is shallowly embedded
below as an executable Lean definition.  Network effects are made explicit:
a function that performs HTTP calls takes the responses (or a response
function) as an argument and, where call counts matter, returns the list or
number of requests it issued.  Python truthiness on optional strings is
modelled by `pyTruthy`, and Python str.split with no argument by `pySplit`.
-/

/-! ## Byte-level utilities (bytes are `Nat` values below 256) -/

/-- Big-endian byte representation of `n`, padded or truncated to `len` bytes.
Mirrors `int.to_bytes(len, "big")` in the sizes used here. -/
def beBytes : Nat → Nat → List Nat
  | 0, _ => []
  | k + 1, n => beBytes k (n / 256) ++ [n % 256]

/-- UTF-8 bytes of a string; all strings hashed or encoded in this embedding
are ASCII (base64url alphabet), for which UTF-8 is the identity on
code points. -/
def strBytes (s : String) : List Nat := s.data.map Char.toNat

/-- Python str.split() with no argument: split on whitespace runs and drop
empty fragments. -/
def splitWsAux : List Char → List Char → List String
  | [], acc => if acc.isEmpty then [] else [⟨acc.reverse⟩]
  | c :: rest, acc =>
    if c.isWhitespace then
      (if acc.isEmpty then [] else [⟨acc.reverse⟩]) ++ splitWsAux rest []
    else splitWsAux rest (c :: acc)

/-- Python str.split() on a String. -/
def pySplit (s : String) : List String := splitWsAux s.data []

/-- Python str.strip(): drop leading and trailing whitespace. -/
def pyStrip (s : String) : String :=
  ⟨((s.data.dropWhile Char.isWhitespace).reverse.dropWhile Char.isWhitespace).reverse⟩

/-- Python truthiness of an optional string: None and the empty string are
falsy, every other string is truthy. -/
def pyTruthy : Option String → Bool
  | none => false
  | some s => s != ""

/-! ## SHA-256 (model of hashlib.sha256, FIPS 180-4), over `Nat` mod 2^32 -/

/-- 2^32, the word modulus of SHA-256. -/
def M32 : Nat := 4294967296

/-- 32-bit right rotation. -/
def rotr32 (n x : Nat) : Nat := ((x >>> n) ||| (x <<< (32 - n))) % M32

/-- SHA-256 message-schedule small sigma 0. -/
def wordSig0 (x : Nat) : Nat := (rotr32 7 x) ^^^ (rotr32 18 x) ^^^ (x >>> 3)

/-- SHA-256 message-schedule small sigma 1. -/
def wordSig1 (x : Nat) : Nat := (rotr32 17 x) ^^^ (rotr32 19 x) ^^^ (x >>> 10)

/-- SHA-256 compression big Sigma 0. -/
def roundSig0 (x : Nat) : Nat := (rotr32 2 x) ^^^ (rotr32 13 x) ^^^ (rotr32 22 x)

/-- SHA-256 compression big Sigma 1. -/
def roundSig1 (x : Nat) : Nat := (rotr32 6 x) ^^^ (rotr32 11 x) ^^^ (rotr32 25 x)

/-- The 64 SHA-256 round constants of FIPS 180-4 (the fractional parts of
the cube roots of the first 64 primes), written in decimal. -/
def shaK : List Nat :=
  [1116352408, 1899447441, 3049323471, 3921009573, 961987163,
   1508970993, 2453635748, 2870763221, 3624381080, 310598401,
   607225278, 1426881987, 1925078388, 2162078206, 2614888103,
   3248222580, 3835390401, 4022224774, 264347078, 604807628,
   770255983, 1249150122, 1555081692, 1996064986, 2554220882,
   2821834349, 2952996808, 3210313671, 3336571891, 3584528711,
   113926993, 338241895, 666307205, 773529912, 1294757372,
   1396182291, 1695183700, 1986661051, 2177026350, 2456956037,
   2730485921, 2820302411, 3259730800, 3345764771, 3516065817,
   3600352804, 4094571909, 275423344, 430227734, 506948616,
   659060556, 883997877, 958139571, 1322822218, 1537002063,
   1747873779, 1955562222, 2024104815, 2227730452, 2361852424,
   2428436474, 2756734187, 3204031479, 3329325298]

/-- Running hash state: the eight 32-bit working values. -/
structure ShaState where
  a : Nat
  b : Nat
  c : Nat
  d : Nat
  e : Nat
  f : Nat
  g : Nat
  h : Nat
deriving Repr, DecidableEq

/-- Initial SHA-256 hash values (fractional parts of the square roots of
the first eight primes), written in decimal. -/
def shaInit : ShaState :=
  ⟨1779033703, 3144134277, 1013904242, 2773480762,
   1359893119, 2600822924, 528734635, 1541459225⟩

/-- Componentwise 32-bit addition of two hash states. -/
def addState (x y : ShaState) : ShaState :=
  ⟨(x.a + y.a) % M32, (x.b + y.b) % M32, (x.c + y.c) % M32, (x.d + y.d) % M32,
   (x.e + y.e) % M32, (x.f + y.f) % M32, (x.g + y.g) % M32, (x.h + y.h) % M32⟩

/-- SHA-256 padding: append 0x80, zero bytes to 56 mod 64, then the 64-bit
big-endian bit length. -/
def shaPad (msg : List Nat) : List Nat :=
  let L := msg.length
  let k := (120 - (L + 1) % 64) % 64
  msg ++ [0x80] ++ List.replicate k 0 ++ beBytes 8 (8 * L)

/-- Group bytes into big-endian 32-bit words. -/
def toWords : List Nat → List Nat
  | a :: b :: c :: d :: rest =>
      (((a * 256 + b) * 256 + c) * 256 + d) :: toWords rest
  | _ => []

/-- Split a byte list into 64-byte chunks; the fuel argument bounds the
number of chunks and is always supplied at least the list length. -/
def chunks64 : Nat → List Nat → List (List Nat)
  | 0, _ => []
  | _, [] => []
  | fuel + 1, l => l.take 64 :: chunks64 fuel (l.drop 64)

/-- Extend the 16 chunk words into the 64-entry message schedule. -/
def extendSchedule (w0 : List Nat) : List Nat :=
  (List.range 48).foldl
    (fun w _ =>
      let t := w.length
      w ++ [(w.getD (t - 16) 0 + wordSig0 (w.getD (t - 15) 0) + w.getD (t - 7) 0
             + wordSig1 (w.getD (t - 2) 0)) % M32])
    w0

/-- One SHA-256 compression round; `kw` is the pair of round constant and
schedule word. -/
def compressRound (s : ShaState) (kw : Nat × Nat) : ShaState :=
  let ch := (s.e &&& s.f) ^^^ (((M32 - 1) ^^^ s.e) &&& s.g)
  let maj := (s.a &&& s.b) ^^^ (s.a &&& s.c) ^^^ (s.b &&& s.c)
  let t1 := (s.h + roundSig1 s.e + ch + kw.1 + kw.2) % M32
  let t2 := (roundSig0 s.a + maj) % M32
  ⟨(t1 + t2) % M32, s.a, s.b, s.c, (s.d + t1) % M32, s.e, s.f, s.g⟩

/-- Process one 64-byte chunk. -/
def processChunk (hs : ShaState) (chunk : List Nat) : ShaState :=
  let w := extendSchedule (toWords chunk)
  addState hs ((shaK.zip w).foldl compressRound hs)

/-- SHA-256 digest of a byte list, as 32 bytes. -/
def sha256 (msg : List Nat) : List Nat :=
  let padded := shaPad msg
  let final := (chunks64 padded.length padded).foldl processChunk shaInit
  beBytes 4 final.a ++ beBytes 4 final.b ++ beBytes 4 final.c ++ beBytes 4 final.d
  ++ beBytes 4 final.e ++ beBytes 4 final.f ++ beBytes 4 final.g ++ beBytes 4 final.h

/-- Known-answer check of the SHA-256 embedding (FIPS 180-4 example):
the digest of the three bytes of "abc". -/
theorem sha256_known_answer :
    sha256 (strBytes "abc") =
      [186, 120, 22, 191, 143, 1, 207, 234, 65, 65, 64, 222,
       93, 174, 34, 35, 176, 3, 97, 163, 150, 23, 122, 156,
       180, 16, 255, 97, 242, 0, 21, 173] := by decide

/-! ## base64url (model of base64.urlsafe_b64encode) -/

/-- The base64url alphabet. -/
def b64urlAlphabet : List Char :=
  "ABCDEFGHIJKLMNOPQRSTUVWXYZabcdefghijklmnopqrstuvwxyz0123456789-_".data

/-- Alphabet lookup. -/
def b64Char (n : Nat) : Char := b64urlAlphabet.getD n 'A'

/-- base64url encoding with '=' padding, as a character list. -/
def base64urlChars : List Nat → List Char
  | [] => []
  | [a] => [b64Char (a / 4 % 64), b64Char (a % 4 * 16), '=', '=']
  | [a, b] => [b64Char (a / 4 % 64), b64Char (a % 4 * 16 + b / 16 % 16),
               b64Char (b % 16 * 4), '=']
  | a :: b :: c :: rest =>
      [b64Char (a / 4 % 64), b64Char (a % 4 * 16 + b / 16 % 16),
       b64Char (b % 16 * 4 + c / 64 % 4), b64Char (c % 64)] ++ base64urlChars rest

/-- base64.urlsafe_b64encode(...).decode("utf-8"). -/
def base64urlEncode (bytes : List Nat) : String := ⟨base64urlChars bytes⟩

/-- Python str.rstrip("="): remove trailing '=' characters. -/
def rstripEq (s : String) : String :=
  ⟨(s.data.reverse.dropWhile (fun c => c = '=')).reverse⟩

/-! ## PKCE pair generation (mcp_client.py, generate_pkce_pair)

The 32 random bytes produced by secrets.token_bytes(32) are passed in as the
argument `rand`. -/

/-- generate_pkce_pair: verifier is the unpadded base64url of the random
bytes; challenge is the unpadded base64url of the SHA-256 digest of the
verifier string. -/
def generate_pkce_pair (rand : List Nat) : String × String :=
  let code_verifier := rstripEq (base64urlEncode rand)
  let code_challenge := rstripEq (base64urlEncode (sha256 (strBytes code_verifier)))
  (code_verifier, code_challenge)

/-- Known-answer check of the PKCE embedding: 32 zero bytes give the
43-character verifier of letter A repeated, and the challenge computed by
hashlib.sha256 plus urlsafe_b64encode on that verifier. -/
theorem pkce_known_answer :
    generate_pkce_pair (List.replicate 32 0) =
      ("AAAAAAAAAAAAAAAAAAAAAAAAAAAAAAAAAAAAAAAAAAA",
       "DwBzhbb51LfusnSGBa_hqYSgo7-j8BTQnip4TOnlzRo") := by decide

/-! ## OAuth client configuration and authorization URL
(okta_oauth_provider.py, OktaOAuthProvider) -/

/-- The environment-sourced configuration read in OktaOAuthProvider.init.
client_secret is optional; okta_domain, client_id and okta_issuer are
required to be truthy by the constructor checks. -/
structure OktaClientConfig where
  okta_domain : String
  client_id : String
  client_secret : Option String
  okta_issuer : String
  mcp_required_scopes : String
deriving Repr, DecidableEq

/-- The fixed redirect URI of OktaOAuthProvider. -/
def redirectUri : String := "http://localhost:3030/oauth/callback"

/-- self.mcp_scope: the f-string of the three OIDC scopes and
MCP_REQUIRED_SCOPES, stripped. -/
def mcp_scope (cfg : OktaClientConfig) : String :=
  pyStrip ("openid profile offline_access " ++ cfg.mcp_required_scopes)

/-- Python str() of an optional string, as interpolated by an f-string:
None prints as "None". -/
def optStr : Option String → String
  | none => "None"
  | some s => s

/-- The params dict of get_authorization_url, in construction order.  Note
that client_secret is placed in the query parameters unconditionally. -/
def get_authorization_params (cfg : OktaClientConfig) (state code_challenge : String) :
    List (String × String) :=
  [("client_id", cfg.client_id),
   ("client_secret", optStr cfg.client_secret),
   ("response_type", "code"),
   ("scope", mcp_scope cfg),
   ("redirect_uri", redirectUri),
   ("state", state),
   ("code_challenge", code_challenge),
   ("code_challenge_method", "S256")]

/-- Python "&".join. -/
def joinAmp : List String → String
  | [] => ""
  | [x] => x
  | x :: y :: rest => x ++ "&" ++ joinAmp (y :: rest)

/-- get_authorization_url: the issuer authorize endpoint with the params
rendered as k=v pairs joined by ampersands (no URL encoding in the source). -/
def get_authorization_url (cfg : OktaClientConfig) (state code_challenge : String) :
    String :=
  cfg.okta_issuer ++ "/v1/authorize" ++ "?"
    ++ joinAmp ((get_authorization_params cfg state code_challenge).map
        (fun kv => kv.1 ++ "=" ++ kv.2))

/-! ## Authorization-code exchange (okta_oauth_provider.py,
exchange_code_for_tokens) -/

/-- The response of the token endpoint to the code exchange POST, with the
JSON body fields the source reads. -/
structure CodeTokenResponse where
  status : Nat := 200
  text : String := ""
  access_token : Option String := none
  token_type : Option String := none
  expires_in : Option Int := none
  refresh_token : Option String := none
  scope : Option String := none
deriving Repr, DecidableEq

/-- The OAuthToken value constructed on success. -/
structure OAuthToken where
  access_token : String
  token_type : String
  expires_in : Option Int
  refresh_token : Option String
  scope : String
deriving Repr, DecidableEq

/-- Failures of the client OAuth flow. csrfMismatch models the ValueError
raised on a state mismatch; codeExchangeFailed models the Exception raised
on a non-200 token response; missingAccessToken models the KeyError on a
200 response without an access_token field. -/
inductive FlowError where
  | csrfMismatch : FlowError
  | codeExchangeFailed : Nat → String → FlowError
  | missingAccessToken : FlowError
deriving Repr, DecidableEq

/-- The form body of the code-exchange POST: grant, code, redirect URI and
the PKCE code_verifier, plus client credentials when truthy. -/
def exchange_code_data (cfg : OktaClientConfig) (code code_verifier : String) :
    List (String × String) :=
  [("grant_type", "authorization_code"),
   ("code", code),
   ("redirect_uri", redirectUri),
   ("code_verifier", code_verifier)]
  ++ (if cfg.client_id != "" then [("client_id", cfg.client_id)] else [])
  ++ (match cfg.client_secret with
      | some s => if s != "" then [("client_secret", s)] else []
      | none => [])

/-- exchange_code_for_tokens, with the token endpoint passed in as a function
from the POSTed form body to its response. -/
def exchange_code_for_tokens (cfg : OktaClientConfig) (code code_verifier : String)
    (endpoint : List (String × String) → CodeTokenResponse) :
    Except FlowError OAuthToken :=
  let r := endpoint (exchange_code_data cfg code code_verifier)
  if r.status ≠ 200 then .error (.codeExchangeFailed r.status r.text)
  else match r.access_token with
    | none => .error .missingAccessToken
    | some t =>
        .ok { access_token := t,
              token_type := r.token_type.getD "Bearer",
              expires_in := r.expires_in,
              refresh_token := r.refresh_token,
              scope := r.scope.getD "" }

/-! ## The client authentication flow (mcp_client.py, authenticate_with_okta)

The generated state string, the PKCE random bytes, the callback result
(code and returned state captured by the local HTTP listener), and the token
endpoint are all inputs; the trace records the URL opened in the browser and
every POST body sent to the token endpoint. -/

instance {ε α : Type} [DecidableEq ε] [DecidableEq α] : DecidableEq (Except ε α) :=
  fun x y =>
    match x, y with
    | .ok a, .ok b =>
        if h : a = b then .isTrue (by rw [h])
        else .isFalse (by intro hc; injection hc; contradiction)
    | .error a, .error b =>
        if h : a = b then .isTrue (by rw [h])
        else .isFalse (by intro hc; injection hc; contradiction)
    | .ok _, .error _ => .isFalse (by intro hc; injection hc)
    | .error _, .ok _ => .isFalse (by intro hc; injection hc)

/-- Observable outcome of one run of authenticate_with_okta. -/
structure FlowTrace where
  openedUrl : String
  tokenPosts : List (List (String × String))
  result : Except FlowError OAuthToken
deriving Repr, DecidableEq

/-- authenticate_with_okta: generate the PKCE pair, build and open the
authorization URL, receive the callback, check the returned state against
the generated one, and only then exchange the code. -/
def authenticate_with_okta (cfg : OktaClientConfig) (rand : List Nat)
    (state : String) (callback : String × Option String)
    (endpoint : List (String × String) → CodeTokenResponse) : FlowTrace :=
  let code_verifier := (generate_pkce_pair rand).1
  let code_challenge := (generate_pkce_pair rand).2
  let url := get_authorization_url cfg state code_challenge
  if callback.2 ≠ some state then
    { openedUrl := url, tokenPosts := [], result := .error .csrfMismatch }
  else
    { openedUrl := url,
      tokenPosts := [exchange_code_data cfg callback.1 code_verifier],
      result := exchange_code_for_tokens cfg callback.1 code_verifier endpoint }

/-! ## DPoP proof and RFC 8693 token exchange (mcp_server.py,
exchange_token and its nested create_dpop_proof)

The ephemeral RSA keypair generated at the start of exchange_token is
represented by the base64url strings of its public modulus and exponent
(jwkN, jwkE), fixed for the whole call; the signature by the private key is
implicit in the proof object.  The jti values drawn from os.urandom and the
iat timestamp are inputs. -/

/-- The signed DPoP proof contents: header fields typ, alg and jwk, and the
claims jti, htm, htu, iat and the optional nonce. -/
structure DpopProof where
  typ : String
  alg : String
  jwkN : String
  jwkE : String
  jti : String
  htm : String
  htu : String
  iat : Int
  nonce : Option String
deriving Repr, DecidableEq

/-- create_dpop_proof: claims always carry jti, htm POST, htu the token URL
and iat; the nonce claim is added only when the nonce argument is truthy. -/
def create_dpop_proof (jwkN jwkE tokenUrl jti : String) (iat : Int)
    (nonce : Option String) : DpopProof :=
  { typ := "dpop+jwt", alg := "RS256", jwkN := jwkN, jwkE := jwkE,
    jti := jti, htm := "POST", htu := tokenUrl, iat := iat,
    nonce := if pyTruthy nonce then nonce else none }

/-- A token-endpoint response as read by exchange_token: HTTP status, the
JSON error code of the body, the DPoP-Nonce response header, the
access_token field of the body, and the raw body text used in diagnostics. -/
structure TokenResponse where
  status : Nat := 200
  errorCode : Option String := none
  dpopNonce : Option String := none
  access_token : Option String := none
  text : String := ""
deriving Repr, DecidableEq

/-- Failures of exchange_token. missingNonce models the Exception raised
when the server demands a nonce but supplies no DPoP-Nonce header;
httpError models requests raise_for_status; missingAccessToken models the
KeyError on a success body without access_token. -/
inductive ExchangeError where
  | missingNonce : ExchangeError
  | httpError : Nat → String → ExchangeError
  | missingAccessToken : ExchangeError
deriving Repr, DecidableEq

/-- response.raise_for_status() followed by response.json()["access_token"]:
4xx and 5xx statuses raise, otherwise the access token is extracted. -/
def exchFinalize (r : TokenResponse) : Except ExchangeError String :=
  if 400 ≤ r.status ∧ r.status < 600 then .error (.httpError r.status r.text)
  else match r.access_token with
    | some t => .ok t
    | none => .error .missingAccessToken

/-- exchange_token, with the token endpoint passed in as a function of the
DPoP proof attached to the POST (the form body and Basic auth are fixed
within one call).  Returns the outcome and the list of proofs sent, one per
POST performed, in order.  A 400 response with error code use_dpop_nonce
leads to exactly one retry with a regenerated proof carrying the nonce from
the DPoP-Nonce header; a missing (or empty, by Python truthiness) nonce
header raises instead, and every other response goes straight to
raise_for_status. -/
def exchange_token (server : DpopProof → TokenResponse)
    (jwkN jwkE tokenUrl jti1 jti2 : String) (now : Int) :
    Except ExchangeError String × List DpopProof :=
  let p1 := create_dpop_proof jwkN jwkE tokenUrl jti1 now none
  let r1 := server p1
  if r1.status = 400 ∧ r1.errorCode = some "use_dpop_nonce" then
    if pyTruthy r1.dpopNonce = false then (.error .missingNonce, [p1])
    else
      let p2 := create_dpop_proof jwkN jwkE tokenUrl jti2 now r1.dpopNonce
      let r2 := server p2
      (exchFinalize r2, [p1, p2])
  else (exchFinalize r1, [p1])

/-! ## Introspection token verification (okta_token_verifier.py,
OktaTokenVerifier.verify_token) -/

/-- A JSON scope value: either a space-delimited string or a list of
strings. -/
inductive ScopeVal where
  | str : String → ScopeVal
  | list : List String → ScopeVal
deriving Repr, DecidableEq

/-- The introspection response body fields the source reads, plus the HTTP
status.  Absent JSON fields are none. -/
structure IntroResponse where
  status : Nat := 200
  active : Option Bool := none
  scope : Option ScopeVal := none
  client_id : Option String := none
  exp : Option Int := none
  username : Option String := none
  sub : Option String := none
deriving Repr, DecidableEq

/-- What the single POST to the introspection endpoint did: either raised a
transport-level exception or produced a response. -/
inductive IntroOutcome where
  | exc : String → IntroOutcome
  | resp : IntroResponse → IntroOutcome

/-- The AccessToken result object constructed by the verifier (fields of
mcp.server.auth.provider.AccessToken used by the source). -/
structure AccessToken where
  token : String
  client_id : String
  scopes : List String
  expires_at : Option Int
  resource : Option String
deriving Repr, DecidableEq

/-- The scope normalization of verify_token: scope_str.split() when the
scope field holds a string, and the empty list for every non-string value
(in particular a list is discarded, not preserved). -/
def introScopes : ScopeVal → List String
  | .str s => pySplit s
  | .list _ => []

/-- verify_token: missing client credentials, a transport exception, a
non-200 status and an inactive token all yield none; only a 200 response
with active true produces an AccessToken.  The whole body sits inside a
try/except returning none, so no exception propagates. -/
def verify_token (clientId clientSecret : Option String) (token : String)
    (outcome : IntroOutcome) : Option AccessToken :=
  if pyTruthy clientId = false ∨ pyTruthy clientSecret = false then none
  else match outcome with
    | .exc _ => none
    | .resp r =>
        if r.status ≠ 200 then none
        else if (r.active.getD false) = false then none
        else some { token := token,
                    client_id := r.client_id.getD "unknown",
                    scopes := introScopes (r.scope.getD (.str "")),
                    expires_at := r.exp,
                    resource := none }

/-! ## Backend JWT verification (mcp_backend.py, get_okta_public_key and
verify_jwt_token) -/

/-- One JWKS entry: its key id and the PEM string obtained from the JWK by
RSAAlgorithm.from_jwk and serialization (represented directly, since only
its identity matters to the control flow). -/
structure Jwk where
  kid : String
  pem : String
deriving Repr, DecidableEq

/-- An HTTPException: status code and detail string. -/
structure HTTPExc where
  status : Nat
  detail : String
deriving Repr, DecidableEq

/-- get_okta_public_key: performs one GET of the JWKS on every call (there
is no cache in the source), then scans the keys for the kid; a miss raises
401.  The second component counts the JWKS fetches the call performed,
always exactly one. -/
def get_okta_public_key (jwks : List Jwk) (kid : String) :
    Except HTTPExc String × Nat :=
  (match jwks.find? (fun k => k.kid == kid) with
   | some k => .ok k.pem
   | none => .error ⟨401, "Unable to find appropriate key"⟩,
   1)

/-- The claim set of a JWT as used by the backend: issuer, audience, expiry
and the scp claim (string or list, possibly absent). -/
structure JwtClaims where
  iss : String
  aud : String
  exp : Int
  scp : Option ScopeVal
deriving Repr, DecidableEq

/-- A bearer JWT: the kid of its header, a predicate telling under which PEM
keys its signature verifies, and its payload claims. -/
structure Jwt where
  kid : String
  sigValidFor : String → Bool
  claims : JwtClaims

/-- Errors raised by jwt.decode.  In PyJWT, ExpiredSignatureError is a
subclass of InvalidTokenError; isInvalidTokenError records that both
constructors are invalid-token errors for except-clause dispatch. -/
inductive JwtError where
  | expiredSignature : JwtError
  | invalidToken : String → JwtError
deriving Repr, DecidableEq

/-- Every JwtError is an InvalidTokenError (PyJWT subclassing). -/
def JwtError.isInvalidTokenError : JwtError → Bool := fun _ => true

/-- Model of PyJWT jwt.decode with RS256, configured audience and issuer:
the signature is checked first, then the claims, with the expiry check
before the issuer and audience checks, each failure mapping to the
corresponding PyJWT error. -/
def jwtDecode (tok : Jwt) (key : String) (audience issuer : String) (now : Int) :
    Except JwtError JwtClaims :=
  if tok.sigValidFor key = false then
    .error (.invalidToken "Signature verification failed")
  else if tok.claims.exp ≤ now then .error .expiredSignature
  else if tok.claims.iss ≠ issuer then .error (.invalidToken "Invalid issuer")
  else if tok.claims.aud ≠ audience then .error (.invalidToken "Invalid audience")
  else .ok tok.claims

/-- The reason strings of the generic invalid-token errors produced by
jwtDecode. -/
def jwtInvalidReasons : List String :=
  ["Signature verification failed", "Invalid issuer", "Invalid audience"]

/-- The scp normalization of verify_jwt_token: payload.get("scp", []) with a
string split into words and a list kept as is. -/
def normalizeScp : ScopeVal → List String
  | .str s => pySplit s
  | .list l => l

/-- The verification result of verify_jwt_token.  The kid lookup failure
(an HTTPException, not a jwt error) propagates; an ExpiredSignatureError is
caught by its own except clause before the generic InvalidTokenError clause;
a valid payload without the required scope raises 403, which also
propagates out of the try block. -/
def verify_jwt_result (jwks : List Jwk) (requiredScope audience issuer : String)
    (tok : Jwt) (now : Int) : Except HTTPExc JwtClaims :=
  match (get_okta_public_key jwks tok.kid).1 with
  | .error e => .error e
  | .ok key =>
      match jwtDecode tok key audience issuer now with
      | .error .expiredSignature => .error ⟨401, "Token has expired"⟩
      | .error (.invalidToken r) => .error ⟨401, "Invalid token: " ++ r⟩
      | .ok payload =>
          if requiredScope ∈ normalizeScp (payload.scp.getD (.list [])) then
            .ok payload
          else .error ⟨403, "Insufficient scope: mcp:backend required"⟩

/-- verify_jwt_token: the verification result paired with the number of
JWKS fetches performed during the call (those of its one
get_okta_public_key call). -/
def verify_jwt_token (jwks : List Jwk) (requiredScope audience issuer : String)
    (tok : Jwt) (now : Int) : Except HTTPExc JwtClaims × Nat :=
  (verify_jwt_result jwks requiredScope audience issuer tok now,
   (get_okta_public_key jwks tok.kid).2)

/-! ## Concrete demonstration values used by witnesses and counterexamples -/

/-- A concrete client configuration. -/
def demoCfg : OktaClientConfig :=
  { okta_domain := "demo.okta.example",
    client_id := "client123",
    client_secret := some "secret456",
    okta_issuer := "https://demo.okta.example/oauth2/default",
    mcp_required_scopes := "mcp:access" }

/-- A one-key JWKS. -/
def demoJwks : List Jwk := [{ kid := "kid1", pem := "PEM1" }]

/-- Claims of a valid unexpired token carrying scopes openid and mcp:access
as a space-delimited scp string. -/
def demoClaims : JwtClaims :=
  { iss := "https://issuer", aud := "api://default", exp := 200,
    scp := some (.str "openid mcp:access") }

/-- A token signed under PEM1 with demoClaims. -/
def demoJwt : Jwt :=
  { kid := "kid1", sigValidFor := fun key => key == "PEM1", claims := demoClaims }

/-- The same token with a signature valid under no key. -/
def demoBadSigJwt : Jwt :=
  { kid := "kid1", sigValidFor := fun _ => false, claims := demoClaims }

/-- A token signed under PEM1 whose expiry 50 is in the past at time 100. -/
def demoExpiredJwt : Jwt :=
  { kid := "kid1", sigValidFor := fun key => key == "PEM1",
    claims := { iss := "https://issuer", aud := "api://default", exp := 50,
                scp := some (.str "openid mcp:access") } }

/-- A token whose kid matches no key of demoJwks. -/
def demoUnknownKidJwt : Jwt :=
  { kid := "kidX", sigValidFor := fun key => key == "PEM1", claims := demoClaims }

/-- A mock token endpoint for the DPoP handshake: the first, nonce-free
proof is answered with 400 use_dpop_nonce and nonce header abc123; a proof
carrying a nonce is answered 200 with access token tok1. -/
def demoDpopServer : DpopProof → TokenResponse := fun p =>
  match p.nonce with
  | none => { status := 400, errorCode := some "use_dpop_nonce",
              dpopNonce := some "abc123", access_token := none,
              text := "use_dpop_nonce" }
  | some _ => { status := 200, errorCode := none, dpopNonce := none,
                access_token := some "tok1", text := "" }

/-! ## Claims -/

/-- C1: if the first POST of exchange_token returns status 400 with error
code use_dpop_nonce, then: when the DPoP-Nonce header carries a nonce, the
proof is regenerated including that nonce and the POST is retried exactly
once more (the request trace is precisely the nonce-free proof followed by
the nonce-carrying proof), and a successful retry returns the access token
issued there; when the nonce header is absent, the call fails with
MissingNonce and the trace shows no retry. -/
theorem C1_dpop_nonce_retry
    (server : DpopProof → TokenResponse) (jwkN jwkE url jti1 jti2 : String)
    (now : Int)
    (h400 : (server (create_dpop_proof jwkN jwkE url jti1 now none)).status = 400)
    (herr : (server (create_dpop_proof jwkN jwkE url jti1 now none)).errorCode
              = some "use_dpop_nonce") :
    (∀ n : String,
      (server (create_dpop_proof jwkN jwkE url jti1 now none)).dpopNonce = some n →
      n ≠ "" →
      (exchange_token server jwkN jwkE url jti1 jti2 now).2 =
        [create_dpop_proof jwkN jwkE url jti1 now none,
         create_dpop_proof jwkN jwkE url jti2 now (some n)] ∧
      (create_dpop_proof jwkN jwkE url jti2 now (some n)).nonce = some n ∧
      (∀ t : String,
        (server (create_dpop_proof jwkN jwkE url jti2 now (some n))).status = 200 →
        (server (create_dpop_proof jwkN jwkE url jti2 now (some n))).access_token
          = some t →
        (exchange_token server jwkN jwkE url jti1 jti2 now).1 = .ok t)) ∧
    ((server (create_dpop_proof jwkN jwkE url jti1 now none)).dpopNonce = none →
      (exchange_token server jwkN jwkE url jti1 jti2 now).1 = .error .missingNonce ∧
      (exchange_token server jwkN jwkE url jti1 jti2 now).2 =
        [create_dpop_proof jwkN jwkE url jti1 now none]) := by
  constructor
  · intro n hn hne
    have htr : pyTruthy (some n) = true := by
      simp [pyTruthy, hne]
    refine ⟨?_, ?_, ?_⟩
    · simp [exchange_token, h400, herr, hn, htr]
    · simp [create_dpop_proof, pyTruthy, hne]
    · intro t h200 htok
      simp [exchange_token, h400, herr, hn, htr, exchFinalize, h200, htok]
  · intro hn
    constructor
    · simp [exchange_token, h400, herr, hn, pyTruthy]
    · simp [exchange_token, h400, herr, hn, pyTruthy]

/-- Witness for C1 at the mock endpoint demoDpopServer: the first attempt
gets 400 use_dpop_nonce with nonce abc123, exactly one retry is made with a
proof containing nonce abc123, and the returned access token is tok1. -/
theorem C1_dpop_nonce_retry_witness :
    (exchange_token demoDpopServer "N0" "E0" "https://issuer/v1/token"
        "jti1" "jti2" 5).2 =
      [create_dpop_proof "N0" "E0" "https://issuer/v1/token" "jti1" 5 none,
       create_dpop_proof "N0" "E0" "https://issuer/v1/token" "jti2" 5
         (some "abc123")] ∧
    (create_dpop_proof "N0" "E0" "https://issuer/v1/token" "jti2" 5
        (some "abc123")).nonce = some "abc123" ∧
    (exchange_token demoDpopServer "N0" "E0" "https://issuer/v1/token"
        "jti1" "jti2" 5).1 = .ok "tok1" := by
  have h := C1_dpop_nonce_retry demoDpopServer "N0" "E0"
    "https://issuer/v1/token" "jti1" "jti2" 5 (by decide) (by decide)
  have h1 := h.1 "abc123" (by decide) (by decide)
  exact ⟨h1.1, h1.2.1, h1.2.2 "tok1" (by decide) (by decide)⟩

/-- C2: introspection-based verification returns none (a definite deny, no
access-token result and no propagated exception, since verify_token is a
total function into Option) whenever the introspection status is not 200,
or the response is not active, or the transport raised; all three causes
produce the very same value none, so the caller cannot distinguish them. -/
theorem C2_introspection_fail_closed (clientId clientSecret : Option String)
    (token : String) :
    (∀ r : IntroResponse, r.status ≠ 200 →
        verify_token clientId clientSecret token (.resp r) = none) ∧
    (∀ r : IntroResponse, r.active.getD false = false →
        verify_token clientId clientSecret token (.resp r) = none) ∧
    (∀ msg : String,
        verify_token clientId clientSecret token (.exc msg) = none) := by
  refine ⟨fun r h => ?_, fun r h => ?_, fun msg => ?_⟩
  · simp [verify_token, h]
  · by_cases hs : r.status = 200 <;> simp [verify_token, h, hs]
  · simp [verify_token]

/-- Witness for C2: a 500 response, an inactive 200 response and a raised
transport exception all verify to none. -/
theorem C2_introspection_fail_closed_witness :
    verify_token (some "cid") (some "sec") "tok"
        (.resp { status := 500, active := some true }) = none ∧
    verify_token (some "cid") (some "sec") "tok"
        (.resp { status := 200, active := some false }) = none ∧
    verify_token (some "cid") (some "sec") "tok" (.exc "ConnectError") = none := by
  have h := C2_introspection_fail_closed (some "cid") (some "sec") "tok"
  exact ⟨h.1 _ (by decide), h.2.1 _ (by decide), h.2.2 "ConnectError"⟩

/-- A mock token endpoint for the code exchange, issuing tok1. -/
def demoCodeEndpoint : List (String × String) → CodeTokenResponse := fun _ =>
  { status := 200, access_token := some "tok1", token_type := some "Bearer",
    expires_in := some 3600 }

/-- The PKCE verifier generated from 32 zero random bytes. -/
def demoVerifier : String := (generate_pkce_pair (List.replicate 32 0)).1

/-- C3 counterexample: the claim that the code_verifier is never included
in any data sent over the network is false.  In a run of the client flow
with matching state, the one POST made to the token endpoint carries the
pair (code_verifier, verifier) in its form body: the verifier itself is
transmitted, as RFC 7636 requires for the code-for-token exchange. -/
theorem C3_verifier_transmitted_counterexample :
    (authenticate_with_okta demoCfg (List.replicate 32 0) "state1"
        ("AUTHCODE1", some "state1") demoCodeEndpoint).tokenPosts =
      [exchange_code_data demoCfg "AUTHCODE1" demoVerifier] ∧
    ("code_verifier", demoVerifier) ∈
      exchange_code_data demoCfg "AUTHCODE1" demoVerifier := by
  constructor
  · simp [authenticate_with_okta, demoVerifier]
  · simp [exchange_code_data]

/-- C3 amended: the code_verifier is never a parameter of the authorization
URL (the request that travels through the browser); only the
SHA-256-derived code_challenge appears there, with method S256.  The
verifier is sent over the network exactly once, in the direct back-channel
POST body to the token endpoint during the code exchange. -/
theorem C3_verifier_backchannel_only (cfg : OktaClientConfig)
    (state code : String) (rand : List Nat) :
    "code_verifier" ∉
      (get_authorization_params cfg state (generate_pkce_pair rand).2).map
        Prod.fst ∧
    ("code_challenge", (generate_pkce_pair rand).2) ∈
      get_authorization_params cfg state (generate_pkce_pair rand).2 ∧
    ("code_challenge_method", "S256") ∈
      get_authorization_params cfg state (generate_pkce_pair rand).2 ∧
    ("code_verifier", (generate_pkce_pair rand).1) ∈
      exchange_code_data cfg code (generate_pkce_pair rand).1 := by
  refine ⟨?_, ?_, ?_, ?_⟩
  · simp [get_authorization_params]
  · simp [get_authorization_params]
  · simp [get_authorization_params]
  · simp [exchange_code_data]

/-- C4: whenever the state returned in the callback differs from the state
generated for the authorization request, the flow fails with CsrfMismatch
and its trace contains no POST to the token endpoint, so no code-for-token
exchange is attempted. -/
theorem C4_csrf_blocks_exchange (cfg : OktaClientConfig) (rand : List Nat)
    (state auth_code : String) (received : Option String)
    (endpoint : List (String × String) → CodeTokenResponse)
    (h : received ≠ some state) :
    (authenticate_with_okta cfg rand state (auth_code, received)
        endpoint).result = .error .csrfMismatch ∧
    (authenticate_with_okta cfg rand state (auth_code, received)
        endpoint).tokenPosts = [] := by
  constructor <;> simp [authenticate_with_okta, h]

/-- Witness for C4: with generated state state1 and returned state evil,
the flow result is CsrfMismatch and the token-POST trace is empty. -/
theorem C4_csrf_blocks_exchange_witness :
    (authenticate_with_okta demoCfg (List.replicate 32 0) "state1"
        ("AUTHCODE1", some "evil") demoCodeEndpoint).result =
      .error .csrfMismatch ∧
    (authenticate_with_okta demoCfg (List.replicate 32 0) "state1"
        ("AUTHCODE1", some "evil") demoCodeEndpoint).tokenPosts = [] :=
  C4_csrf_blocks_exchange demoCfg (List.replicate 32 0) "state1" "AUTHCODE1"
    (some "evil") demoCodeEndpoint (by decide)

/-- C5: for every generated PKCE pair, the code_challenge equals the
base64url encoding, with padding stripped, of the SHA-256 digest of the
code_verifier string, and that challenge is placed in the authorization URL
parameters together with method S256. -/
theorem C5_pkce_challenge (rand : List Nat) (cfg : OktaClientConfig)
    (state : String) :
    (generate_pkce_pair rand).2 =
      rstripEq (base64urlEncode (sha256 (strBytes (generate_pkce_pair rand).1))) ∧
    ("code_challenge", (generate_pkce_pair rand).2) ∈
      get_authorization_params cfg state (generate_pkce_pair rand).2 ∧
    ("code_challenge_method", "S256") ∈
      get_authorization_params cfg state (generate_pkce_pair rand).2 := by
  refine ⟨rfl, ?_, ?_⟩ <;> simp [get_authorization_params]

/-- Extract the status of an error outcome of verify_jwt_token. -/
def errStatus : Except HTTPExc JwtClaims → Option Nat
  | .error e => some e.status
  | .ok _ => none

/-- C6: backend scope enforcement is membership of the single required
scope in the normalized scope set.  For the token with scopes openid and
mcp:access, required scope mcp:access is allowed; required scope mcp:write
is denied with the 403 insufficient-scope exception; and that forbidden
outcome carries a different status than the 401 unauthorized outcome an
invalid token gets. -/
theorem C6_scope_enforcement :
    (verify_jwt_token demoJwks "mcp:access" "api://default" "https://issuer"
        demoJwt 100).1 = .ok demoClaims ∧
    (verify_jwt_token demoJwks "mcp:write" "api://default" "https://issuer"
        demoJwt 100).1 =
      .error ⟨403, "Insufficient scope: mcp:backend required"⟩ ∧
    (verify_jwt_token demoJwks "mcp:access" "api://default" "https://issuer"
        demoBadSigJwt 100).1 =
      .error ⟨401, "Invalid token: Signature verification failed"⟩ ∧
    errStatus (verify_jwt_token demoJwks "mcp:write" "api://default"
        "https://issuer" demoJwt 100).1 ≠
      errStatus (verify_jwt_token demoJwks "mcp:access" "api://default"
        "https://issuer" demoBadSigJwt 100).1 := by decide

/-- C7 counterexample: the claimed fetch-on-miss cache policy is false.
This verification finds its kid in the key set (a hit, not a miss) and the
call still performs one JWKS fetch: get_okta_public_key keeps no cache and
fetches the key set on every call. -/
theorem C7_fetch_on_hit_counterexample :
    (verify_jwt_token demoJwks "mcp:access" "api://default" "https://issuer"
        demoJwt 100).1 = .ok demoClaims ∧
    (verify_jwt_token demoJwks "mcp:access" "api://default" "https://issuer"
        demoJwt 100).2 = 1 := by decide

/-- C7 amended: for every token whose kid matches no key of the fetched
key set, verification fails with the 401 key-not-found exception and the
key set is fetched from the identity provider exactly once during that
verification; moreover the key set is fetched exactly once on every
verification, hit or miss - the source keeps no process-wide cache. -/
theorem C7_keynotfound_fetches_every_call (jwks : List Jwk) (tok : Jwt)
    (requiredScope audience issuer : String) (now : Int)
    (h : jwks.find? (fun k => k.kid == tok.kid) = none) :
    (verify_jwt_token jwks requiredScope audience issuer tok now).1 =
      .error ⟨401, "Unable to find appropriate key"⟩ ∧
    (verify_jwt_token jwks requiredScope audience issuer tok now).2 = 1 ∧
    (∀ (jwks2 : List Jwk) (tok2 : Jwt) (now2 : Int),
      (verify_jwt_token jwks2 requiredScope audience issuer tok2 now2).2 = 1) := by
  refine ⟨?_, rfl, fun _ _ _ => rfl⟩
  simp [verify_jwt_token, verify_jwt_result, get_okta_public_key, h]

/-- Witness for the amended C7: the token with unknown kid kidX fails with
the 401 key-not-found exception, that verification fetches once, and so
does the successful demoJwt verification. -/
theorem C7_keynotfound_fetches_every_call_witness :
    (verify_jwt_token demoJwks "mcp:access" "api://default" "https://issuer"
        demoUnknownKidJwt 100).1 =
      .error ⟨401, "Unable to find appropriate key"⟩ ∧
    (verify_jwt_token demoJwks "mcp:access" "api://default" "https://issuer"
        demoUnknownKidJwt 100).2 = 1 ∧
    (verify_jwt_token demoJwks "mcp:access" "api://default" "https://issuer"
        demoJwt 100).2 = 1 := by
  have h := C7_keynotfound_fetches_every_call demoJwks demoUnknownKidJwt
    "mcp:access" "api://default" "https://issuer" 100 (by decide)
  exact ⟨h.1, h.2.1, h.2.2 demoJwks demoJwt 100⟩

/-- C8: a token whose expiry is in the past (and whose kid is known and
signature valid, so that claim validation is reached) fails with the
specific 401 Token-has-expired exception, never with the generic
Invalid-token exception, although the underlying ExpiredSignatureError is
itself an invalid-token error: the expired except clause dispatches first,
and every generic reason string the decoder can produce yields a different
detail. -/
theorem C8_expired_specific (jwks : List Jwk) (tok : Jwt)
    (requiredScope audience issuer : String) (now : Int) (k : Jwk)
    (hfind : jwks.find? (fun kk => kk.kid == tok.kid) = some k)
    (hsig : tok.sigValidFor k.pem = true)
    (hexp : tok.claims.exp < now) :
    (verify_jwt_token jwks requiredScope audience issuer tok now).1 =
      .error ⟨401, "Token has expired"⟩ ∧
    JwtError.isInvalidTokenError .expiredSignature = true ∧
    ∀ r ∈ jwtInvalidReasons, "Invalid token: " ++ r ≠ "Token has expired" := by
  refine ⟨?_, rfl, by decide⟩
  have hle : tok.claims.exp ≤ now := le_of_lt hexp
  simp [verify_jwt_token, verify_jwt_result, get_okta_public_key, hfind,
    jwtDecode, hsig, hle]

/-- Witness for C8: the expired demo token verifies to the 401
Token-has-expired exception. -/
theorem C8_expired_specific_witness :
    (verify_jwt_token demoJwks "mcp:access" "api://default" "https://issuer"
        demoExpiredJwt 100).1 = .error ⟨401, "Token has expired"⟩ :=
  (C8_expired_specific demoJwks demoExpiredJwt "mcp:access" "api://default"
    "https://issuer" 100 { kid := "kid1", pem := "PEM1" }
    (by decide) (by decide) (by decide)).1

/-- A 200 active introspection response with a space-delimited scope
string. -/
def demoIntroStr : IntroResponse :=
  { status := 200, active := some true,
    scope := some (.str "openid mcp:access"),
    client_id := some "cid", exp := some 1000 }

/-- The same introspection response with the scope delivered as a list. -/
def demoIntroList : IntroResponse :=
  { status := 200, active := some true,
    scope := some (.list ["openid", "mcp:access"]),
    client_id := some "cid", exp := some 1000 }

/-- C9 counterexample: the two scope forms do not yield the same scope set
in the constructed access-token result.  The string form yields the split
scope list, the list form yields the empty list: verify_token discards a
list-valued scope instead of preserving it. -/
theorem C9_list_scope_discarded_counterexample :
    (verify_token (some "cid") (some "sec") "tok"
        (.resp demoIntroStr)).map AccessToken.scopes =
      some ["openid", "mcp:access"] ∧
    (verify_token (some "cid") (some "sec") "tok"
        (.resp demoIntroList)).map AccessToken.scopes = some [] ∧
    (verify_token (some "cid") (some "sec") "tok"
        (.resp demoIntroStr)).map AccessToken.scopes ≠
      (verify_token (some "cid") (some "sec") "tok"
        (.resp demoIntroList)).map AccessToken.scopes := by decide

/-- C9 amended: in the introspection verifier a scope arriving as a
space-delimited string is split into the scope list, but a scope arriving
as a list is discarded and yields the empty scope list, so the two forms
are not normalized the same way there; only the backend JWT verifier
normalizes both forms to the same scope set. -/
theorem C9_scope_normalization_divergent (ci cs token : String)
    (r : IntroResponse)
    (hci : ci ≠ "") (hcs : cs ≠ "")
    (h200 : r.status = 200) (hact : r.active = some true) :
    (∀ s : String, r.scope = some (.str s) →
      (verify_token (some ci) (some cs) token (.resp r)).map
        AccessToken.scopes = some (pySplit s)) ∧
    (∀ l : List String, r.scope = some (.list l) →
      (verify_token (some ci) (some cs) token (.resp r)).map
        AccessToken.scopes = some []) ∧
    (∀ s : String, normalizeScp (.str s) = pySplit s) ∧
    (∀ l : List String, normalizeScp (.list l) = l) := by
  refine ⟨fun s hs => ?_, fun l hl => ?_, fun s => rfl, fun l => rfl⟩
  · simp [verify_token, pyTruthy, hci, hcs, h200, hact, hs, introScopes]
  · simp [verify_token, pyTruthy, hci, hcs, h200, hact, hl, introScopes]

/-- Witness for the amended C9: the string-scope response yields the split
list and the list-scope response yields the empty list. -/
theorem C9_scope_normalization_divergent_witness :
    (verify_token (some "cid") (some "sec") "tok"
        (.resp demoIntroStr)).map AccessToken.scopes =
      some (pySplit "openid mcp:access") ∧
    (verify_token (some "cid") (some "sec") "tok"
        (.resp demoIntroList)).map AccessToken.scopes = some [] := by
  have h1 := C9_scope_normalization_divergent "cid" "sec" "tok" demoIntroStr
    (by decide) (by decide) (by decide) (by decide)
  have h2 := C9_scope_normalization_divergent "cid" "sec" "tok" demoIntroList
    (by decide) (by decide) (by decide) (by decide)
  exact ⟨h1.1 "openid mcp:access" (by decide),
         h2.2.1 ["openid", "mcp:access"] (by decide)⟩

/-- C10: when a client secret is configured, the authorization URL built by
get_authorization_url - the URL the flow opens in the browser - carries the
plaintext client_secret as a query parameter, alongside client_id, scope,
redirect_uri, state, code_challenge and code_challenge_method. -/
theorem C10_client_secret_in_auth_url (cfg : OktaClientConfig)
    (state code_challenge s : String) (rand : List Nat)
    (callback : String × Option String)
    (endpoint : List (String × String) → CodeTokenResponse)
    (h : cfg.client_secret = some s) :
    ("client_secret", s) ∈ get_authorization_params cfg state code_challenge ∧
    ("client_id", cfg.client_id) ∈
      get_authorization_params cfg state code_challenge ∧
    ("scope", mcp_scope cfg) ∈
      get_authorization_params cfg state code_challenge ∧
    ("redirect_uri", redirectUri) ∈
      get_authorization_params cfg state code_challenge ∧
    ("state", state) ∈ get_authorization_params cfg state code_challenge ∧
    ("code_challenge", code_challenge) ∈
      get_authorization_params cfg state code_challenge ∧
    ("code_challenge_method", "S256") ∈
      get_authorization_params cfg state code_challenge ∧
    ("client_secret=" ++ s) ∈
      (get_authorization_params cfg state code_challenge).map
        (fun kv => kv.1 ++ "=" ++ kv.2) ∧
    get_authorization_url cfg state code_challenge =
      cfg.okta_issuer ++ "/v1/authorize" ++ "?"
        ++ joinAmp ((get_authorization_params cfg state code_challenge).map
              (fun kv => kv.1 ++ "=" ++ kv.2)) ∧
    (authenticate_with_okta cfg rand state callback endpoint).openedUrl =
      get_authorization_url cfg state (generate_pkce_pair rand).2 := by
  refine ⟨?_, ?_, ?_, ?_, ?_, ?_, ?_, ?_, rfl, ?_⟩
  · simp [get_authorization_params, optStr, h]
  · simp [get_authorization_params]
  · simp [get_authorization_params]
  · simp [get_authorization_params]
  · simp [get_authorization_params]
  · simp [get_authorization_params]
  · simp [get_authorization_params]
  · have hmem : ("client_secret", s) ∈
        get_authorization_params cfg state code_challenge := by
      simp [get_authorization_params, optStr, h]
    exact List.mem_map_of_mem (fun kv : String × String => kv.1 ++ "=" ++ kv.2)
      hmem
  · simp only [authenticate_with_okta]
    split <;> rfl

/-- Witness for C10 at the demo configuration: the secret secret456 is a
query parameter of the authorization URL. -/
theorem C10_client_secret_in_auth_url_witness :
    ("client_secret", "secret456") ∈
      get_authorization_params demoCfg "state1" "chal" ∧
    ("client_secret=" ++ "secret456") ∈
      (get_authorization_params demoCfg "state1" "chal").map
        (fun kv => kv.1 ++ "=" ++ kv.2) := by
  have h := C10_client_secret_in_auth_url demoCfg "state1" "chal" "secret456"
    (List.replicate 32 0) ("AUTHCODE1", some "state1") demoCodeEndpoint
    (by decide)
  exact ⟨h.1, h.2.2.2.2.2.2.2.1⟩
